import Mathlib

/-!
Verification development for the FreqTrade strategy tools
(`strategy_tools/strategy_backtester.py` and `strategy_tools/utils.py`).

The Python code is shallowly embedded: pure computations become Lean
functions, filesystem and subprocess interaction is made explicit through
state records and environment inputs, `try/except` becomes `Option`
plumbing, and Python `float` values are modelled as `Rat` (only plain
decimal numerals occur in the parsed tool output).
-/

namespace FreqTrade

/-- Python `pat in s` substring test: the character sequence of `pat` is a
contiguous infix of the character sequence of `s` (the empty pattern is
contained in everything, as in Python). -/
def pyContains (s pat : String) : Bool :=
  decide (pat.toList <:+: s.toList)

/-- Strip whitespace from both ends of a character list (Python
`str.strip()` with no argument, over the whitespace characters occurring
in tool output). -/
def trimChars (cs : List Char) : List Char :=
  ((cs.dropWhile Char.isWhitespace).reverse.dropWhile Char.isWhitespace).reverse

/-- Python `str.strip()`. -/
def pyTrim (s : String) : String :=
  String.mk (trimChars s.toList)

/-- Worker for `pySplitOn`: scan left to right, emitting a piece at each
non-overlapping occurrence of the (nonempty) separator.  The fuel argument
makes the recursion structural; it is initialised to the input length,
which every step consumes at least one of. -/
def splitGo (sep : List Char) : Nat → List Char → List Char → List (List Char)
  | 0, s, acc => [acc.reverse ++ s]
  | _ + 1, [], acc => [acc.reverse]
  | fuel + 1, c :: rest, acc =>
    if sep.isPrefixOf (c :: rest) then
      acc.reverse :: splitGo sep fuel (rest.drop (sep.length - 1)) []
    else splitGo sep fuel rest (c :: acc)

/-- Python `s.split(sep)` for a nonempty separator. -/
def pySplitOn (s sep : String) : List String :=
  (splitGo sep.toList s.toList.length s.toList []).map String.mk

/-- Worker for `pyReplace`, same fuel discipline as `splitGo`. -/
def replaceGo (pat rep : List Char) : Nat → List Char → List Char
  | 0, s => s
  | _ + 1, [] => []
  | fuel + 1, c :: rest =>
    if pat ≠ [] ∧ pat.isPrefixOf (c :: rest) then
      rep ++ replaceGo pat rep fuel (rest.drop (pat.length - 1))
    else c :: replaceGo pat rep fuel rest

/-- Python `s.replace(pat, rep)` for a nonempty pattern: replace every
non-overlapping occurrence, left to right. -/
def pyReplace (s pat rep : String) : String :=
  String.mk (replaceGo pat.toList rep.toList s.toList.length s.toList)

/-- Split a character list at every character satisfying `p`, keeping
empty pieces. -/
def splitPredChars (p : Char → Bool) (cs : List Char) : List (List Char) :=
  cs.foldr
    (fun c acc =>
      if p c then [] :: acc
      else match acc with
        | a :: rest => (c :: a) :: rest
        | [] => [[c]])
    [[]]

/-- Python `str.split()` with no argument: split on whitespace runs,
discarding empty pieces. -/
def pySplitWS (s : String) : List String :=
  ((splitPredChars Char.isWhitespace s.toList).map String.mk).filter (fun p => p ≠ "")

/-- Python `s.startswith(pre)`. -/
def pyStartsWith (s pre : String) : Bool :=
  pre.toList.isPrefixOf s.toList

/-- Python `s.endswith(suf)`. -/
def pyEndsWith (s suf : String) : Bool :=
  suf.toList.isSuffixOf s.toList

/-- Numeric value of a list of decimal digit characters. -/
def digitsVal (ds : List Char) : Nat :=
  ds.foldl (fun n c => n * 10 + (c.toNat - 48)) 0

/-- Strip one leading sign character, returning (isNegative, rest). -/
def stripSign (cs : List Char) : Bool × List Char :=
  match cs with
  | '-' :: rest => (true, rest)
  | '+' :: rest => (false, rest)
  | _ => (false, cs)

/-- Python `int(s)` on a decimal numeral string: optional surrounding
whitespace, optional sign, at least one digit; `none` models the
`ValueError` raised on any other input. -/
def parseInt (s : String) : Option Int :=
  let cs := trimChars s.toList
  let p := stripSign cs
  let ds := p.2
  if ds.isEmpty then none
  else if ds.all Char.isDigit then
    some (if p.1 then -(digitsVal ds : Int) else (digitsVal ds : Int))
  else none

/-- Python `float(s)` restricted to plain decimal numerals (optional sign,
digits, at most one decimal point): the only numeric shapes produced by the
backtesting tool output.  `none` models the `ValueError` on malformed
input. -/
def parseFloat (s : String) : Option Rat :=
  let cs := trimChars s.toList
  let p := stripSign cs
  let ds := p.2
  let signed : Rat → Rat := fun q => if p.1 then -q else q
  let ip := ds.takeWhile (fun c => c ≠ '.')
  let rest := ds.dropWhile (fun c => c ≠ '.')
  match rest with
  | [] =>
    if ip.isEmpty then none
    else if ip.all Char.isDigit then some (signed (mkRat (digitsVal ip) 1)) else none
  | _ :: fp =>
    if fp.contains '.' then none
    else if ip.all Char.isDigit && fp.all Char.isDigit then
      if ip.isEmpty && fp.isEmpty then none
      else some (signed (mkRat (digitsVal ip * 10 ^ fp.length + digitsVal fp) (10 ^ fp.length)))
    else none

/-- Lexicographic comparison of character lists by code point: the order
Python uses to compare strings. -/
def charListLe : List Char → List Char → Bool
  | [], _ => true
  | _ :: _, [] => false
  | a :: as, b :: bs => if a = b then charListLe as bs else decide (a < b)

/-- Python string `<=`. -/
def pyLe (a b : String) : Bool :=
  charListLe a.toList b.toList

/-- The ordering relation underlying `pySorted`. -/
def PyLeR (a b : String) : Prop :=
  pyLe a b = true

instance : DecidableRel PyLeR := fun a b => instDecidableEqBool (pyLe a b) true

/-- Python `sorted` on strings: stable ascending sort in the code-point
lexicographic order. -/
def pySorted (l : List String) : List String :=
  l.insertionSort PyLeR

/-- The canonical metrics record of `parse_backtest_output`, with the
documented field defaults. -/
structure Metrics where
  strategy : String
  total_return : Rat := 0
  total_trades : Int := 0
  winning_trades : Int := 0
  losing_trades : Int := 0
  win_rate : Rat := 0
  profit_factor : Rat := 0
  sharpe_ratio : Rat := 0
  max_drawdown : Rat := 0
  avg_profit : Rat := 0
  total_profit_abs : Rat := 0
  total_profit_percent : Rat := 0
  avg_duration : String := ""
  best_pair : String := ""
  worst_pair : String := ""
  backtest_start : String := ""
  backtest_end : String := ""
  market_change : Rat := 0
  deriving Repr, DecidableEq

/-- The initial metrics dictionary of `parse_backtest_output` (all fields
at their defaults, `strategy` set to the identifier). -/
def initMetrics (strategy_name : String) : Metrics :=
  { strategy := strategy_name }

/-- `m2` differs from `m1` in at most one of the fields a detail row can
assign: the statement language of the field-isolation property. -/
def DetailSingleUpdate (m1 m2 : Metrics) : Prop :=
  m2 = m1 ∨
  (∃ v, m2 = { m1 with total_profit_percent := v }) ∨
  (∃ v, m2 = { m1 with total_profit_abs := v }) ∨
  (∃ v, m2 = { m1 with sharpe_ratio := v }) ∨
  (∃ v, m2 = { m1 with profit_factor := v }) ∨
  (∃ p, m2 = { m1 with best_pair := p }) ∨
  (∃ p, m2 = { m1 with worst_pair := p }) ∨
  (∃ v, m2 = { m1 with max_drawdown := v }) ∨
  (∃ v, m2 = { m1 with market_change := v })

/-- Body of a recognised detail row given the label cell `p1` and the
value cell `p2`. -/
def detailRowBody (m : Metrics) (p1 p2 : String) : Metrics :=
  if pyContains p1 "Total profit %" then
      if pyContains p2 "%" then
        match parseFloat (pyReplace p2 "%" "") with
        | some v => { m with total_profit_percent := v }
        | none => m
      else m
    else if pyContains p1 "Absolute profit" then
      if pyContains p2 "USDT" then
        match parseFloat (pyTrim (pyReplace p2 "USDT" "")) with
        | some v => { m with total_profit_abs := v }
        | none => m
      else m
    else if pyContains p1 "Sharpe" then
      match parseFloat p2 with
      | some v => { m with sharpe_ratio := v }
      | none => m
    else if pyContains p1 "Profit factor" then
      match parseFloat p2 with
      | some v => { m with profit_factor := v }
      | none => m
    else if pyContains p1 "Best Pair" then
      { m with best_pair := p2 }
    else if pyContains p1 "Worst Pair" then
      { m with worst_pair := p2 }
    else if pyContains p1 "Max % of account underwater" || pyContains p1 "Absolute Drawdown (Account)" then
      if pyContains p2 "%" then
        match parseFloat (pyReplace p2 "%" "") with
        | some v => { m with max_drawdown := v }
        | none => m
      else m
    else if pyContains p1 "Market change" then
      if pyContains p2 "%" then
        match parseFloat (pyReplace p2 "%" "") with
        | some v => { m with market_change := v }
        | none => m
      else m
    else m

/-- The box-drawing detail-row branch of `parse_backtest_output`
(the `if chr(0x2502) in line` block): one labelled metric per row, each
numeric extraction wrapped in its own `try/except`. -/
def detailRow (m : Metrics) (parts : List String) : Metrics :=
  if parts.length ≥ 4 then
    detailRowBody m (parts.getD 1 "") (parts.getD 2 "")
  else m

/-- The box-drawing detail-row branch applied to the split and stripped
cells of the line (`parts = [part.strip() for part in line.split(...)]`). -/
def detailBranch (m : Metrics) (line : String) : Metrics :=
  detailRow m ((pySplitOn line "│").map pyTrim)

/-- The win/draw/loss tail of the strategy-summary row: sequential updates
inside the same `try` block, so a failing conversion keeps the updates
already made (each match arm carries the assignments executed so far) and
skips the rest. -/
def summaryWinStats (m : Metrics) (win_stats : String) : Metrics :=
  if win_stats == "" then m
  else
    if (pySplitWS win_stats).length ≥ 4 then
      match parseInt ((pySplitWS win_stats).getD 0 "") with
      | none => m
      | some w =>
        match parseInt ((pySplitWS win_stats).getD 2 "") with
        | none => { m with winning_trades := w }
        | some l =>
          match parseFloat ((pySplitWS win_stats).getD 3 "") with
          | none => { m with winning_trades := w, losing_trades := l }
          | some wr => { m with winning_trades := w, losing_trades := l, win_rate := wr }
    else m

/-- The strategy-summary-table branch of `parse_backtest_output`
(the `if strategy_name in line` block): one shared `try` covers the whole
row, so a failing conversion keeps the assignments already executed and
abandons the remaining fields of the row. -/
def summaryRow (m : Metrics) (parts : List String) : Metrics :=
  if parts.length ≥ 9 then
    match parseInt (parts.getD 2 "") with
    | none => m
    | some tt =>
      match parseFloat (parts.getD 3 "") with
      | none => { m with total_trades := tt }
      | some ap =>
        match parseFloat (parts.getD 4 "") with
        | none => { m with total_trades := tt, avg_profit := ap }
        | some pa =>
          match parseFloat (parts.getD 5 "") with
          | none => { m with total_trades := tt, avg_profit := ap, total_profit_abs := pa }
          | some pp =>
            summaryWinStats
              { m with total_trades := tt, avg_profit := ap, total_profit_abs := pa,
                       total_profit_percent := pp, avg_duration := parts.getD 6 "" }
              (pyTrim (parts.getD 7 ""))
  else m

/-- The strategy-summary-table branch applied to the split and stripped
cells of the line. -/
def summaryBranch (m : Metrics) (line : String) : Metrics :=
  summaryRow m ((pySplitOn line "│").map pyTrim)

/-- The `Backtested ... -> ...` date-range branch of
`parse_backtest_output`: Python tuple unpacking raises (and the record is
left untouched) unless the split yields exactly two pieces. -/
def backtestedUpdate (m : Metrics) (date_part : String) : Metrics :=
  if pyContains date_part "->" then
    match pySplitOn date_part "->" with
    | [s, e] => { m with backtest_start := pyTrim s, backtest_end := pyTrim e }
    | _ => m
  else m

/-- The `Backtested ... -> ...` branch applied to the extracted and
stripped date part of the line. -/
def backtestedBranch (m : Metrics) (line : String) : Metrics :=
  backtestedUpdate m (pyTrim ((pySplitOn ((pySplitOn line "Backtested").getD 1 "") "|").getD 0 ""))

/-- One iteration of the line loop of `parse_backtest_output`. -/
def processLine (strategy_name : String) (m : Metrics) (rawLine : String) : Metrics :=
  let line := pyTrim rawLine
  let m := if pyContains line "│" then detailBranch m line else m
  let m := if pyContains line strategy_name && pyContains line "│" then summaryBranch m line else m
  if pyContains line "Backtested" && pyContains line "->" then backtestedBranch m line else m

/-- `StrategyBacktester.parse_backtest_output`: fold the line processor
over `output.split(newline)` starting from the default metrics record.
Total by construction, which models the all-catching `try/except`
structure of the source (the parse never raises). -/
def parse_backtest_output (output : String) (strategy_name : String) : Metrics :=
  (pySplitOn output "\n").foldl (processLine strategy_name) (initMetrics strategy_name)

/-- The configuration attributes of `StrategyBacktester.__init__` that the
claims touch, with the source defaults. -/
structure Backtester where
  config_path : String := "user_data/config.json"
  start_date : String := "20240101"
  end_date : String := "20241231"
  timeframe : String := "5m"
  strategy_timeout : Nat := 300
  discovery_timeout : Nat := 60
  deriving Repr, DecidableEq

/-- The `backtest_config` sub-dictionary of a persisted record.  Fields are
`Option`s because a record read back from disk may lack any of the keys
(Python `dict.get` then yields `None`). -/
structure StoredConfig where
  start_date : Option String := none
  end_date : Option String := none
  config_path : Option String := none
  timeframe : Option String := none
  deriving Repr, DecidableEq

/-- A persisted per-strategy success record
(`individual_results/<name>_result.json`): the merge of the parsed metrics
and the metadata attached in `run_backtest_worker`. -/
structure StoredResult where
  metrics : Metrics := initMetrics ""
  execution_time : Nat := 0
  backtest_timestamp : String := ""
  detected_timeframe : String := ""
  backtest_config : Option StoredConfig := none
  freqtrade_version : String := ""
  command_executed : String := ""
  deriving Repr, DecidableEq

/-- Contents of a JSON file on disk: `malformed` models a `json.load` (or
subsequent dict-shape access) that raises inside the surrounding
`try/except`. -/
inductive FileContent (α : Type)
  | malformed
  | ok (val : α)
  deriving Repr, DecidableEq

/-- `StrategyBacktester.load_existing_result`: load the persisted record
for the strategy if its file exists and parses, and return it only when
the stored `backtest_config` start and end dates both equal the active
configuration; otherwise return `None`. -/
def load_existing_result (b : Backtester)
    (resultFiles : String → Option (FileContent StoredResult))
    (strategy_name : String) : Option StoredResult :=
  match resultFiles strategy_name with
  | none => none
  | some .malformed => none
  | some (.ok r) =>
    if (r.backtest_config.bind (fun c => c.start_date)) = some b.start_date
       ∧ (r.backtest_config.bind (fun c => c.end_date)) = some b.end_date
    then some r else none

/-- One entry of a per-strategy artifact directory listing. -/
structure FileEntry where
  name : String
  isFile : Bool := true
  size : Nat := 0
  deriving Repr, DecidableEq

/-- `pathlib.Path(name).suffix`: the extension starting at the last dot,
empty when the name has no dot, starts with its only dot (hidden file), or
ends with the dot. -/
def pySuffix (name : String) : String :=
  let cs := name.toList
  let idxs := (List.range cs.length).filter (fun i => cs.getD i ' ' = '.')
  match idxs.getLast? with
  | none => ""
  | some i => if 0 < i ∧ i + 1 < cs.length then String.mk (cs.drop i) else ""

/-- The completeness test of `cleanup_failed_strategy_directory`: a regular
file whose pathlib suffix is `.json`, whose name mentions `backtest`, and
whose size exceeds 1000 bytes. -/
def isCompleteArtifact (f : FileEntry) : Bool :=
  f.isFile && pySuffix f.name == ".json" && pyContains f.name "backtest" && f.size > 1000

/-- Pointwise update of a string-keyed partial map (a file write or
delete). -/
def updateFn {α : Type} (f : String → Option α) (key : String) (v : Option α) :
    String → Option α :=
  fun n => if n = key then v else f n

/-- `StrategyBacktester.cleanup_failed_strategy_directory` as a transformer
of the directory map: remove the directory when it is empty (`rmdir`) or
when it holds no complete artifact (`shutil.rmtree`); keep it otherwise. -/
def cleanup_failed_strategy_directory (dirs : String → Option (List FileEntry))
    (strategy_name : String) : String → Option (List FileEntry) :=
  match dirs strategy_name with
  | none => dirs
  | some files =>
    if files.isEmpty then updateFn dirs strategy_name none
    else if files.any isCompleteArtifact then dirs
    else updateFn dirs strategy_name none

/-- A persisted failure record (`individual_results/<name>_failed.json`)
as written by the three failure paths of `run_backtest_worker` (the
timeout and exception paths omit the `detected_timeframe` key and the
config `timeframe` key). -/
structure WorkerFailedRecord where
  strategy : String
  error : String
  stdout : String
  detected_timeframe : Option String := none
  failed_timestamp : String
  backtest_config : StoredConfig
  deriving Repr, DecidableEq

/-- Outcome of the external `freqtrade backtesting` subprocess call:
normal completion with exit 0, completion with nonzero exit,
`subprocess.TimeoutExpired`, or any other raised exception. -/
inductive ExecOutcome
  | success (stdout : String) (stderr : String)
  | exitError (stdout : String) (stderr : String)
  | timedOut
  | raised (msg : String)
  deriving Repr, DecidableEq

/-- Environment inputs of one `run_backtest_worker` call that come from
outside the program state: the subprocess outcome, the measured wall-clock
duration, the current timestamp, the reported tool version, the timeframe
resolved by `detect_strategy_timeframe` (its file/regex analysis is
abstracted to this input), and the artifact files the external tool left
in the unit directory. -/
structure WorkerEnv where
  outcome : ExecOutcome
  duration : Nat
  now : String
  version : String
  detected_timeframe : String
  dirAfterRun : List FileEntry

/-- The on-disk and instrumentation state threaded through
`run_backtest_worker`: the flat success cache, the flat failure cache, the
per-strategy artifact directories, a counter of external backtest
invocations and a log of cleanup calls. -/
structure Store where
  resultFiles : String → Option (FileContent StoredResult)
  failedFiles : String → Option WorkerFailedRecord
  stratDirs : String → Option (List FileEntry)
  invocations : Nat := 0
  cleanupCalls : List String := []

/-- The command line of the backtest subprocess joined with spaces
(`command_executed` metadata field). -/
def backtestCmd (b : Backtester) (strategy_name tf : String) : String :=
  "freqtrade backtesting --config " ++ b.config_path ++ " --strategy " ++ strategy_name ++
  " --timerange " ++ b.start_date ++ "-" ++ b.end_date ++ " --timeframe " ++ tf ++
  " --export trades --export-filename user_data/backtest_results/" ++ strategy_name ++
  "/" ++ strategy_name ++ "_backtest.json"

/-- The failure record each failure path constructs, per source: exit
error carries stderr, captured stdout, the detected timeframe and a
4-field config; timeout carries the fixed timeout message and a 3-field
config; a raised exception carries its text and a 3-field config. -/
def failureRecord (b : Backtester) (env : WorkerEnv) (strategy_name tf : String) :
    ExecOutcome → WorkerFailedRecord
  | .exitError stdout stderr =>
    { strategy := strategy_name, error := stderr, stdout := stdout,
      detected_timeframe := some tf, failed_timestamp := env.now,
      backtest_config := { start_date := some b.start_date, end_date := some b.end_date,
                           config_path := some b.config_path, timeframe := some tf } }
  | .timedOut =>
    { strategy := strategy_name,
      error := "Timeout after " ++ toString b.strategy_timeout ++ " seconds",
      stdout := "", failed_timestamp := env.now,
      backtest_config := { start_date := some b.start_date, end_date := some b.end_date,
                           config_path := some b.config_path } }
  | .raised msg =>
    { strategy := strategy_name, error := msg, stdout := "",
      failed_timestamp := env.now,
      backtest_config := { start_date := some b.start_date, end_date := some b.end_date,
                           config_path := some b.config_path } }
  | .success _ _ =>
    { strategy := strategy_name, error := "", stdout := "", failed_timestamp := env.now,
      backtest_config := {} }

/-- The shared tail of every failure path: persist the failure record to
the flat failure cache, then clean up the unit artifact directory. -/
def failWorker (st : Store) (strategy_name : String) (fr : WorkerFailedRecord) :
    Option StoredResult × Store :=
  let st := { st with failedFiles := updateFn st.failedFiles strategy_name (some fr) }
  let st := { st with stratDirs := cleanup_failed_strategy_directory st.stratDirs strategy_name,
                      cleanupCalls := st.cleanupCalls ++ [strategy_name] }
  (none, st)

/-- `StrategyBacktester.run_backtest_worker`: return the cached result when
`load_existing_result` validates one; otherwise create the unit directory,
resolve the timeframe, invoke the external tool, and on success persist
the merged metrics/metadata record, while every failure outcome persists a
failure record and cleans up the unit directory, returning `None`. -/
def run_backtest_worker (b : Backtester) (env : WorkerEnv) (st : Store)
    (strategy_name : String) : Option StoredResult × Store :=
  match load_existing_result b st.resultFiles strategy_name with
  | some existing => (some existing, st)
  | none =>
    let st := { st with stratDirs :=
                  updateFn st.stratDirs strategy_name (some ((st.stratDirs strategy_name).getD [])) }
    let tf := env.detected_timeframe
    let st := { st with invocations := st.invocations + 1,
                        stratDirs := updateFn st.stratDirs strategy_name (some env.dirAfterRun) }
    match env.outcome with
    | .success stdout _ =>
      let metrics := parse_backtest_output stdout strategy_name
      let full : StoredResult :=
        { metrics := metrics, execution_time := env.duration,
          backtest_timestamp := env.now, detected_timeframe := tf,
          backtest_config := some { start_date := some b.start_date, end_date := some b.end_date,
                                    config_path := some b.config_path, timeframe := some tf },
          freqtrade_version := env.version,
          command_executed := backtestCmd b strategy_name tf }
      let outFile : FileEntry :=
        { name := strategy_name ++ "_output.txt", isFile := true, size := stdout.length }
      let st := { st with stratDirs :=
                    updateFn st.stratDirs strategy_name (some (env.dirAfterRun ++ [outFile])) }
      let st := { st with resultFiles := updateFn st.resultFiles strategy_name (some (.ok full)) }
      (some full, st)
    | o => failWorker st strategy_name (failureRecord b env strategy_name tf o)

/-- `pathlib.Path(p).parent.name` for a relative slash-separated path. -/
def parentName (p : String) : String :=
  (pySplitOn p "/").dropLast.getLastD ""

/-- One line of the grep output loop of `get_compatible_strategies`:
non-blank lines mentioning `.py:` contribute the parent-directory name of
the matched file, appended only if not already collected. -/
def compatLineStep (acc : List String) (line : String) : List String :=
  if pyTrim line != "" && pyContains line ".py:" then
    let file_path := (pySplitOn line ":").getD 0 ""
    if pyEndsWith file_path ".py" then
      let strategy_name := parentName file_path
      if acc.contains strategy_name then acc else acc ++ [strategy_name]
    else acc
  else acc

/-- `StrategyBacktester.get_compatible_strategies`: derive strategy names
from a recursive grep for the marker symbol; `none` models the exception
path (empty list), a nonzero grep exit leaves the collection empty, and
the collection is returned sorted. -/
def get_compatible_strategies (grepOutcome : Option (Int × String)) : List String :=
  match grepOutcome with
  | none => []
  | some (rc, stdout) =>
    let compatible := if rc = 0 then (pySplitOn stdout "\n").foldl compatLineStep [] else []
    pySorted compatible

/-- One subdirectory of `user_data/strategies` as seen by the filesystem
scan: its name, whether it is a directory, and whether a same-named `.py`
file exists inside it. -/
structure StratDirEntry where
  name : String
  isDir : Bool := true
  hasSameNamedPy : Bool := true
  deriving Repr, DecidableEq

/-- `StrategyBacktester.discover_strategies_from_filesystem`: accept each
non-hidden subdirectory containing a same-named Python file; `none` models
a missing strategies root (empty result); the result is sorted. -/
def discover_strategies_from_filesystem (root : Option (List StratDirEntry)) : List String :=
  match root with
  | none => []
  | some entries =>
    let picked := entries.filter (fun e => e.isDir && !(pyStartsWith e.name ".") && e.hasSameNamedPy)
    pySorted (picked.map (fun e => e.name))

/-- Outcome of the external `freqtrade list-strategies` subprocess. -/
inductive ListOutcome
  | completed (rc : Int) (stdout : String)
  | timedOut
  | raised
  deriving Repr, DecidableEq

/-- `StrategyBacktester.discover_strategies`: compatibility-filter mode
delegates to grep-based discovery; otherwise the native listing is parsed
one identifier per line (log-noise lines filtered out) when it exits 0,
and every failure mode (nonzero exit, timeout, exception) falls back to
the filesystem scan. -/
def discover_strategies (compatible_only : Bool) (grepOutcome : Option (Int × String))
    (listOutcome : ListOutcome) (root : Option (List StratDirEntry)) : List String :=
  if compatible_only then get_compatible_strategies grepOutcome
  else
    match listOutcome with
    | .completed rc stdout =>
      if rc = 0 then
        let strategies := ((pySplitOn (pyTrim stdout) "\n").map pyTrim).filter
          (fun s => s != "" && !(pyStartsWith s "2025-"))
        pySorted strategies
      else discover_strategies_from_filesystem root
    | _ => discover_strategies_from_filesystem root

/-- `StrategyBacktester.get_strategies_to_process`: `resultsKeys` models
`self.results.keys()` and `failedNames` models the set comprehension
`{fs.get(strategy-key) for fs in self.failed_strategies}` (an absent key
yields Python `None`, hence the `Option`).  Pending strategies are those
in neither set, in discovery order; with `include_failed` the failed ones
are appended for retry. -/
def get_strategies_to_process (resultsKeys : List String)
    (failedNames : List (Option String)) (all_strategies : List String)
    (include_failed : Bool) : List String :=
  let pending := all_strategies.filter
    (fun s => !(resultsKeys.contains s) && !(failedNames.contains (some s)))
  if include_failed then
    pending ++ all_strategies.filter (fun s => failedNames.contains (some s))
  else pending

/-! ### `strategy_tools/utils.py` (`StrategyResultsUtils`) -/

/-- The richer metrics record built by
`StrategyResultsUtils.parse_strategy_json_data`, with its documented
defaults. -/
structure UtilsMetrics where
  strategy : String
  total_return : Rat := 0
  total_trades : Int := 0
  winning_trades : Int := 0
  losing_trades : Int := 0
  win_rate : Rat := 0
  profit_factor : Rat := 0
  sharpe_ratio : Rat := 0
  max_drawdown : Rat := 0
  avg_profit : Rat := 0
  total_profit_abs : Rat := 0
  total_profit_percent : Rat := 0
  avg_duration : String := ""
  best_pair : String := ""
  worst_pair : String := ""
  backtest_start : String := ""
  backtest_end : String := ""
  market_change : Rat := 0
  cagr : Rat := 0
  expectancy : Rat := 0
  sortino : Rat := 0
  calmar : Rat := 0
  sqn : Rat := 0
  deriving Repr, DecidableEq

/-- One entry of the `strategy_comparison` list inside a structured
backtest JSON file; each field is optional because the source reads them
with `dict.get` defaults. -/
structure ComparisonEntry where
  trades : Option Int := none
  profit_total_pct : Option Rat := none
  profit_total_abs : Option Rat := none
  winrate : Option Rat := none
  profit_factor : Option Rat := none
  sharpe : Option Rat := none
  max_drawdown_account : Option Rat := none
  profit_mean_pct : Option Rat := none
  cagr : Option Rat := none
  expectancy : Option Rat := none
  sortino : Option Rat := none
  calmar : Option Rat := none
  sqn : Option Rat := none
  wins : Option Int := none
  losses : Option Int := none
  duration_avg : Option String := none
  deriving Repr, DecidableEq

/-- The `best_pair`/`worst_pair` sub-dictionaries of a backtest JSON. -/
structure PairData where
  key : Option String := none
  deriving Repr, DecidableEq

/-- The decoded structured backtest data a strategy directory yields.
`strategyFieldTruthy = none` models an absent `strategy` key and
`some b` a present one whose dict is nonempty iff `b`; `best_pair = none`
covers both an absent key and a falsy empty dict. -/
structure BacktestData where
  strategyFieldTruthy : Option Bool := none
  strategy_comparison : Option (List ComparisonEntry) := none
  total_trades : Option Int := none
  profit_total_pct : Option Rat := none
  profit_total_abs : Option Rat := none
  winrate : Option Rat := none
  profit_factor : Option Rat := none
  sharpe : Option Rat := none
  max_drawdown_account : Option Rat := none
  profit_mean_pct : Option Rat := none
  cagr : Option Rat := none
  expectancy : Option Rat := none
  sortino : Option Rat := none
  calmar : Option Rat := none
  sqn : Option Rat := none
  backtest_start : Option String := none
  backtest_end : Option String := none
  market_change : Option Rat := none
  best_pair : Option PairData := none
  worst_pair : Option PairData := none
  holding_avg : Option String := none
  deriving Repr, DecidableEq

/-- Python `int()` applied to a rational value: truncation toward zero. -/
def pyInt (q : Rat) : Int := if 0 ≤ q then ⌊q⌋ else ⌈q⌉

/-- The root-level date/market enrichment applied when the decoded data
carries a `backtest_start` key (comparison branch only). -/
def applyDates (m : UtilsMetrics) (bd : BacktestData) : UtilsMetrics :=
  if bd.backtest_start.isSome then
    { m with backtest_start := bd.backtest_start.getD "",
             backtest_end := bd.backtest_end.getD "",
             market_change := bd.market_change.getD 0 }
  else m

/-- The best-pair enrichment from the decoded root data. -/
def applyBestPair (m : UtilsMetrics) (bd : BacktestData) : UtilsMetrics :=
  match bd.best_pair with
  | some pd => { m with best_pair := pd.key.getD "" }
  | none => m

/-- The worst-pair enrichment from the decoded root data. -/
def applyWorstPair (m : UtilsMetrics) (bd : BacktestData) : UtilsMetrics :=
  match bd.worst_pair with
  | some pd => { m with worst_pair := pd.key.getD "" }
  | none => m

/-- The bulk metric update of the `strategy_comparison` branch, from the
first comparison entry. -/
def applyCompMetrics (m : UtilsMetrics) (c : ComparisonEntry) : UtilsMetrics :=
  { m with
    total_trades := c.trades.getD 0,
    total_profit_percent := c.profit_total_pct.getD 0,
    total_profit_abs := c.profit_total_abs.getD 0,
    win_rate := (c.winrate.getD 0) * 100,
    profit_factor := c.profit_factor.getD 0,
    sharpe_ratio := c.sharpe.getD 0,
    max_drawdown := (c.max_drawdown_account.getD 0) * 100,
    avg_profit := c.profit_mean_pct.getD 0,
    cagr := (c.cagr.getD 0) * 100,
    expectancy := c.expectancy.getD 0,
    sortino := c.sortino.getD 0,
    calmar := c.calmar.getD 0,
    sqn := c.sqn.getD 0,
    winning_trades := c.wins.getD 0,
    losing_trades := c.losses.getD 0,
    avg_duration := c.duration_avg.getD "" }

/-- The `strategy_comparison` branch of `parse_strategy_json_data`
(metric extraction from the first comparison entry, then the root-level
date and pair enrichments, in source order). -/
def applyComparison (m : UtilsMetrics) (c : ComparisonEntry) (bd : BacktestData) : UtilsMetrics :=
  applyWorstPair (applyBestPair (applyDates (applyCompMetrics m c) bd) bd) bd

/-- The bulk metric update of the flat-fields branch, read from the root
of the decoded data. -/
def applyDirectMetrics (m : UtilsMetrics) (bd : BacktestData) : UtilsMetrics :=
  { m with
    total_trades := bd.total_trades.getD 0,
    total_profit_percent := bd.profit_total_pct.getD 0,
    total_profit_abs := bd.profit_total_abs.getD 0,
    win_rate := (bd.winrate.getD 0) * 100,
    profit_factor := bd.profit_factor.getD 0,
    sharpe_ratio := bd.sharpe.getD 0,
    max_drawdown := (bd.max_drawdown_account.getD 0) * 100,
    avg_profit := bd.profit_mean_pct.getD 0,
    cagr := bd.cagr.getD 0,
    expectancy := bd.expectancy.getD 0,
    sortino := bd.sortino.getD 0,
    calmar := bd.calmar.getD 0,
    sqn := bd.sqn.getD 0,
    backtest_start := bd.backtest_start.getD "",
    backtest_end := bd.backtest_end.getD "",
    market_change := bd.market_change.getD 0 }

/-- The win/loss derivation of the flat-fields branch: `int()` truncation
of `total_trades * winrate`, losses as the remainder, plus the average
holding duration. -/
def applyWinLoss (m : UtilsMetrics) (bd : BacktestData) : UtilsMetrics :=
  { m with
    winning_trades := pyInt ((m.total_trades : Rat) * (m.win_rate / 100)),
    losing_trades := m.total_trades - pyInt ((m.total_trades : Rat) * (m.win_rate / 100)),
    avg_duration := bd.holding_avg.getD "" }

/-- The direct (flat-fields) branch of `parse_strategy_json_data`:
bulk metrics, pair enrichments, then the win/loss derivation, in source
order. -/
def applyDirect (m : UtilsMetrics) (bd : BacktestData) : UtilsMetrics :=
  applyWinLoss (applyWorstPair (applyBestPair (applyDirectMetrics m bd) bd) bd) bd

/-- `StrategyResultsUtils.parse_strategy_json_data`, over the decoded
data: `data = none` abstracts every I/O path of the source that returns
`None` before decoding (missing or broken `.last_result.json`, missing
JSON/ZIP artifact, extraction error).  The decoded structure is rejected
without a truthy `strategy` key, and otherwise dispatched to the
`strategy_comparison` branch or the flat-fields branch. -/
def parse_strategy_json_data (strategy_name : String) (data : Option BacktestData) :
    Option UtilsMetrics :=
  match data with
  | none => none
  | some bd =>
    match bd.strategyFieldTruthy with
    | none => none
    | some truthy =>
      if truthy then
        match bd.strategy_comparison.getD [] with
        | c :: _ => some (applyComparison { strategy := strategy_name } c bd)
        | [] =>
          if bd.total_trades.isSome then some (applyDirect { strategy := strategy_name } bd)
          else none
      else none

/-- One entry of `results_dir.iterdir()` as seen by the reconciliation
scan: its name, whether it is a directory, the decoded backtest data it
yields (fed to `parse_strategy_json_data`), and whether a
`*_failed*`/`*error*` glob matches inside it. -/
structure ResultsDirEntry where
  name : String
  isDir : Bool := true
  backtestData : Option BacktestData := none
  failedIndicators : Bool := false
  deriving Repr, DecidableEq

/-- A flat-cache record loaded from `individual_results/<stem>.json`:
`strategyKey` models `record.get` on the strategy key (absent means the
stem is used) and `record` the rest of the loaded payload. -/
structure CachedResult where
  strategyKey : Option String := none
  record : StoredResult := {}
  deriving Repr, DecidableEq

/-- A failure record as handled by `get_failed_strategies`: either loaded
from a cached `*_failed.json` (where the strategy key may be absent) or
constructed from a directory scan. -/
structure UtilsFailedRecord where
  strategy : Option String := none
  error : String := ""
  failed_timestamp : String := ""
  deriving Repr, DecidableEq

/-- A file of the flat `individual_results` cache: its stem and the loaded
content (`none` models a `json.load` error, which the source logs and
skips). -/
structure CacheFile (α : Type) where
  stem : String
  content : Option α := none
  deriving Repr, DecidableEq

/-- The persisted state seen by `StrategyResultsUtils`: the results root,
its directory entries, and the two flat caches in glob order. -/
structure UtilsFS where
  results_dir_exists : Bool := true
  entries : List ResultsDirEntry := []
  individual_results_exists : Bool := true
  cacheResults : List (CacheFile CachedResult) := []
  cacheFailed : List (CacheFile UtilsFailedRecord) := []

/-- A value of the success map: either the metrics parsed from a strategy
artifact directory, or a lightweight record from the flat cache. -/
inductive SuccessRecord
  | fromDir (m : UtilsMetrics)
  | fromCache (r : StoredResult)
  deriving Repr, DecidableEq

/-- First-match lookup in the association-list model of the Python results
dict. -/
def lookupKey (l : List (String × SuccessRecord)) (k : String) : Option SuccessRecord :=
  (l.find? (fun p => p.1 == k)).map Prod.snd

/-- The directory-scan step of `discover_all_successful_strategies`:
non-directories and `individual_results` are skipped; a directory whose
structured parse succeeds contributes its metrics keyed by the metrics
strategy field. -/
def dirScanStep (acc : List String × List (String × SuccessRecord)) (e : ResultsDirEntry) :
    List String × List (String × SuccessRecord) :=
  if !e.isDir || e.name == "individual_results" then acc
  else
    match parse_strategy_json_data e.name e.backtestData with
    | none => acc
    | some metrics => (acc.1 ++ [metrics.strategy], acc.2 ++ [(metrics.strategy, .fromDir metrics)])

/-- The flat-cache step of `discover_all_successful_strategies`: a loadable
`*_result.json` contributes its record under its strategy key (or the
stem with `_result` removed) only when that key is not already present —
directory-based results are never overridden. -/
def cacheScanStep (acc : List String × List (String × SuccessRecord))
    (f : CacheFile CachedResult) : List String × List (String × SuccessRecord) :=
  match f.content with
  | none => acc
  | some cr =>
    if (lookupKey acc.2 (cr.strategyKey.getD (pyReplace f.stem "_result" ""))).isSome then acc
    else (acc.1 ++ [cr.strategyKey.getD (pyReplace f.stem "_result" "")],
          acc.2 ++ [(cr.strategyKey.getD (pyReplace f.stem "_result" ""),
                     .fromCache cr.record)])

/-- `StrategyResultsUtils.discover_all_successful_strategies`: the
directory scan runs first, then the flat cache fills in only identifiers
not already present; the returned name list is deduplicated and sorted. -/
def discover_all_successful_strategies (fs : UtilsFS) :
    List String × List (String × SuccessRecord) :=
  if !fs.results_dir_exists then ([], [])
  else
    let acc := fs.entries.foldl dirScanStep ([], [])
    let acc := if fs.individual_results_exists then fs.cacheResults.foldl cacheScanStep acc else acc
    (pySorted acc.1.dedup, acc.2)

/-- The directory-scan step of `get_failed_strategies`: a directory whose
structured parse fails and which contains failure indicators contributes a
constructed failure record. -/
def failedDirStep (now : String) (acc : List UtilsFailedRecord) (e : ResultsDirEntry) :
    List UtilsFailedRecord :=
  if !e.isDir || e.name == "individual_results" then acc
  else
    match parse_strategy_json_data e.name e.backtestData with
    | some _ => acc
    | none =>
      if e.failedIndicators then
        acc ++ [{ strategy := some e.name, error := "Backtest failed", failed_timestamp := now }]
      else acc

/-- The flat-cache step of `get_failed_strategies`: a loadable
`*_failed.json` record is appended unless a record for the same strategy
name is already collected. -/
def failedCacheStep (acc : List UtilsFailedRecord) (f : CacheFile UtilsFailedRecord) :
    List UtilsFailedRecord :=
  match f.content with
  | none => acc
  | some fr =>
    if acc.any (fun p => p.strategy == some (fr.strategy.getD (pyReplace f.stem "_failed" ""))) then
      acc
    else acc ++ [fr]

/-- `StrategyResultsUtils.get_failed_strategies`. -/
def get_failed_strategies (fs : UtilsFS) (now : String) : List UtilsFailedRecord :=
  if !fs.results_dir_exists then []
  else
    let acc := fs.entries.foldl (failedDirStep now) []
    if fs.individual_results_exists then fs.cacheFailed.foldl failedCacheStep acc else acc

/-- `StrategyResultsUtils.collect_all_results`: the success map from the
reconciliation scan paired with the failure record list. -/
def collect_all_results (fs : UtilsFS) (now : String) :
    List (String × SuccessRecord) × List UtilsFailedRecord :=
  ((discover_all_successful_strategies fs).2, get_failed_strategies fs now)

/-- The intermediate store of `run_backtest_worker` after the unit
directory has been created and the external tool invoked, common to all
post-invocation branches. -/
def midStore (env : WorkerEnv) (st : Store) (name : String) : Store :=
  { st with
    invocations := st.invocations + 1,
    stratDirs := updateFn (updateFn st.stratDirs name (some ((st.stratDirs name).getD [])))
      name (some env.dirAfterRun) }

/-- The directory-scan contribution to the success map, as a `filterMap`
(proof-side characterisation of the `dirScanStep` fold). -/
def dirSuccPairs (entries : List ResultsDirEntry) : List (String × SuccessRecord) :=
  entries.filterMap (fun e =>
    if !e.isDir || e.name == "individual_results" then none
    else (parse_strategy_json_data e.name e.backtestData).map
      (fun m => (m.strategy, SuccessRecord.fromDir m)))

/-- The directory-scan contribution to the success name list. -/
def dirSuccNames (entries : List ResultsDirEntry) : List String :=
  entries.filterMap (fun e =>
    if !e.isDir || e.name == "individual_results" then none
    else (parse_strategy_json_data e.name e.backtestData).map (fun m => m.strategy))

/-- The directory-scan contribution to the failure list, as a `filterMap`
(proof-side characterisation of the `failedDirStep` fold). -/
def dirFailRecs (now : String) (entries : List ResultsDirEntry) : List UtilsFailedRecord :=
  entries.filterMap (fun e =>
    if !e.isDir || e.name == "individual_results" then none
    else
      match parse_strategy_json_data e.name e.backtestData with
      | some _ => none
      | none =>
        if e.failedIndicators then
          some { strategy := some e.name, error := "Backtest failed", failed_timestamp := now }
        else none)

/-! ### Concrete fixtures used by witness theorems -/

/-- A stored configuration matching the default active window. -/
def wCfgOk : StoredConfig := { start_date := some "20240101", end_date := some "20241231" }

/-- A stored configuration whose end date differs from the active window. -/
def wCfgBadEnd : StoredConfig := { start_date := some "20240101", end_date := some "20240601" }

/-- A stored configuration with matching window bounds but a different
config path and timeframe. -/
def wCfgOther : StoredConfig :=
  { start_date := some "20240101", end_date := some "20241231",
    config_path := some "other/config.json", timeframe := some "1h" }

/-- A stored result valid under the default active window. -/
def wResultOk : StoredResult :=
  { backtest_timestamp := "T0", execution_time := 42, backtest_config := some wCfgOk }

/-- A stored result whose window bounds are stale. -/
def wResultBad : StoredResult := { backtest_config := some wCfgBadEnd }

/-- A stored result with matching bounds and differing other fields. -/
def wResultOther : StoredResult := { backtest_config := some wCfgOther }

/-- A flat success cache holding only the stale record for `Alpha`. -/
def wFilesBad : String → Option (FileContent StoredResult) :=
  fun n => if n = "Alpha" then some (.ok wResultBad) else none

/-- A flat success cache holding only the mixed record for `Gamma`. -/
def wFilesOther : String → Option (FileContent StoredResult) :=
  fun n => if n = "Gamma" then some (.ok wResultOther) else none

/-- A store with a valid cached record for `Beta` and nothing else. -/
def wStoreBeta : Store :=
  { resultFiles := fun n => if n = "Beta" then some (.ok wResultOk) else none,
    failedFiles := fun _ => none, stratDirs := fun _ => none }

/-- A store with no persisted state at all. -/
def wStoreEmpty : Store :=
  { resultFiles := fun _ => none, failedFiles := fun _ => none, stratDirs := fun _ => none }

/-- A worker environment whose subprocess would time out. -/
def wEnvTimeout : WorkerEnv :=
  { outcome := .timedOut, duration := 5, now := "T1", version := "v",
    detected_timeframe := "5m", dirAfterRun := [] }

/-- A sub-threshold artifact file and an above-threshold one. -/
def wSmallFile : FileEntry := { name := "Delta_backtest.json", isFile := true, size := 10 }

/-- An above-threshold complete artifact file. -/
def wBigFile : FileEntry := { name := "Delta_backtest.json", isFile := true, size := 2000 }

/-- A directory map holding only a partial artifact for `Delta`. -/
def wDirsSmall : String → Option (List FileEntry) :=
  fun n => if n = "Delta" then some [wSmallFile] else none

/-- A directory map holding a complete artifact for `Delta`. -/
def wDirsBig : String → Option (List FileEntry) :=
  fun n => if n = "Delta" then some [wBigFile] else none

/-- Decoded backtest data with a truthy strategy dict and one comparison
entry, all metric keys at their dict-get defaults. -/
def wBd : BacktestData :=
  { strategyFieldTruthy := some true, strategy_comparison := some [{}] }

/-- A results-directory entry for `X` whose structured parse succeeds. -/
def wDirX : ResultsDirEntry := { name := "X", isDir := true, backtestData := some wBd }

/-- A results-directory entry for `Y` with no loadable data and failure
indicators present. -/
def wDirYFail : ResultsDirEntry :=
  { name := "Y", isDir := true, backtestData := none, failedIndicators := true }

/-- A persisted state where directory `X` parses, directory `Y` failed,
and the flat caches are empty. -/
def wFsDisjoint : UtilsFS := { entries := [wDirX, wDirYFail] }

/-- A cached failure record for `X`. -/
def wFrX : UtilsFailedRecord :=
  { strategy := some "X", error := "boom", failed_timestamp := "t0" }

/-- A persisted state holding both a cached success record and a cached
failure record for the same identifier `X`. -/
def wFsOverlap : UtilsFS :=
  { entries := [],
    cacheResults := [{ stem := "X_result", content := some { strategyKey := some "X" } }],
    cacheFailed := [{ stem := "X_failed", content := some wFrX }] }

/-- A persisted state where directory `X` parses and the flat cache also
holds a record for `X`. -/
def wFsBoth : UtilsFS :=
  { entries := [wDirX],
    cacheResults := [{ stem := "X_result", content := some { strategyKey := some "X" } }] }

/-! ### Ordering facts about `pySorted` (shared helper lemmas) -/

theorem charListLe_total : ∀ as bs : List Char, charListLe as bs = true ∨ charListLe bs as = true
  | [], _ => Or.inl rfl
  | _ :: _, [] => Or.inr rfl
  | a :: as, b :: bs => by
    by_cases hab : a = b
    · subst hab
      simpa [charListLe] using charListLe_total as bs
    · rcases lt_or_gt_of_ne hab with h | h
      · exact Or.inl (by simp [charListLe, hab, h])
      · exact Or.inr (by simp [charListLe, Ne.symm hab, h])

theorem charListLe_trans : ∀ as bs cs : List Char,
    charListLe as bs = true → charListLe bs cs = true → charListLe as cs = true
  | [], _, _ => by intro _ _; rfl
  | _ :: _, [], _ => by intro h _; simp [charListLe] at h
  | _ :: _, _ :: _, [] => by intro _ h; simp [charListLe] at h
  | a :: as, b :: bs, c :: cs => by
    intro hab hbc
    by_cases h1 : a = b
    · subst h1
      by_cases h2 : a = c
      · subst h2
        simp [charListLe] at hab hbc ⊢
        exact charListLe_trans as bs cs hab hbc
      · simp [charListLe, h2] at hbc ⊢
        exact hbc
    · by_cases h2 : b = c
      · subst h2
        simp [charListLe, h1] at hab ⊢
        exact hab
      · simp [charListLe, h1] at hab
        simp [charListLe, h2] at hbc
        have h3 : a < c := lt_trans hab hbc
        simp [charListLe, ne_of_lt h3, h3]

instance : IsTotal String PyLeR :=
  ⟨fun a b => charListLe_total a.toList b.toList⟩

instance : IsTrans String PyLeR :=
  ⟨fun _ _ _ hab hbc => charListLe_trans _ _ _ hab hbc⟩

theorem pySorted_sorted (l : List String) : (pySorted l).Sorted PyLeR :=
  List.sorted_insertionSort PyLeR l

theorem pySorted_perm (l : List String) : List.Perm (pySorted l) l :=
  List.perm_insertionSort PyLeR l

theorem pySorted_nodup {l : List String} (h : l.Nodup) : (pySorted l).Nodup :=
  (pySorted_perm l).nodup_iff.mpr h

/-! ### Claim theorems -/

/-- C1: for every strategy identifier, `load_existing_result` returns a
persisted result only if the stored `backtest_config` start and end dates
both equal the active configuration; when either window bound differs (or
is missing) the persisted result is treated as absent and `None` is
returned, forcing a rerun. -/
theorem load_existing_result_window_validation (b : Backtester)
    (files : String → Option (FileContent StoredResult)) (name : String) :
    (∀ r, load_existing_result b files name = some r →
      files name = some (.ok r) ∧
      r.backtest_config.bind (fun c => c.start_date) = some b.start_date ∧
      r.backtest_config.bind (fun c => c.end_date) = some b.end_date) ∧
    (∀ r, files name = some (.ok r) →
      (r.backtest_config.bind (fun c => c.start_date) ≠ some b.start_date ∨
       r.backtest_config.bind (fun c => c.end_date) ≠ some b.end_date) →
      load_existing_result b files name = none) := by
  constructor
  · intro r h
    unfold load_existing_result at h
    split at h
    · exact absurd h (by simp)
    · exact absurd h (by simp)
    · next r' heq =>
      split at h
      · next hcond => cases h; exact ⟨heq, hcond⟩
      · exact absurd h (by simp)
  · intro r hfm hne
    have heq : load_existing_result b files name =
        (if (r.backtest_config.bind (fun c => c.start_date) = some b.start_date
            ∧ r.backtest_config.bind (fun c => c.end_date) = some b.end_date)
         then some r else none) := by
      unfold load_existing_result
      rw [hfm]
    rw [heq, if_neg]
    tauto

/-- Witness for C1 at a concrete store: a matching stored window is
returned; a store whose end date differs yields `None`. -/
theorem load_existing_result_window_validation_witness :
    load_existing_result {} wFilesBad "Alpha" = none :=
  (load_existing_result_window_validation {} wFilesBad "Alpha").2 wResultBad
    (by decide) (Or.inr (by decide))

/-- C2: when a valid persisted result exists under the unchanged active
configuration, `run_backtest_worker` returns it unchanged and leaves the
whole store untouched: the external tool is not invoked (invocation
counter unchanged) and the stored record (duration and timestamp
included) is not rewritten. -/
theorem run_backtest_worker_cache_hit (b : Backtester) (env : WorkerEnv) (st : Store)
    (name : String) (r : StoredResult)
    (h : load_existing_result b st.resultFiles name = some r) :
    run_backtest_worker b env st name = (some r, st) ∧
    (run_backtest_worker b env st name).2.invocations = st.invocations ∧
    ∀ n, (run_backtest_worker b env st name).2.resultFiles n = st.resultFiles n := by
  have heq : run_backtest_worker b env st name = (some r, st) := by
    unfold run_backtest_worker; rw [h]
  exact ⟨heq, by rw [heq], fun n => by rw [heq]⟩

/-- Witness for C2: a concrete store with a valid cached record for
`Beta` is returned as-is with the store unchanged. -/
theorem run_backtest_worker_cache_hit_witness :
    run_backtest_worker {} wEnvTimeout wStoreBeta "Beta" = (some wResultOk, wStoreBeta) :=
  (run_backtest_worker_cache_hit {} wEnvTimeout wStoreBeta "Beta" wResultOk (by decide)).1

/-- C10: a persisted record whose stored window bounds match the active
configuration is accepted as a cache hit whatever the other stored
configuration fields (config path, timeframe) contain: only the two
window bounds participate in cache validation. -/
theorem load_existing_result_ignores_other_config_fields (b : Backtester)
    (files : String → Option (FileContent StoredResult)) (name : String)
    (r : StoredResult) (cfg : StoredConfig)
    (hfile : files name = some (.ok r))
    (hcfg : r.backtest_config = some cfg)
    (hs : cfg.start_date = some b.start_date)
    (he : cfg.end_date = some b.end_date) :
    load_existing_result b files name = some r := by
  unfold load_existing_result
  rw [hfile]
  simp [hcfg, hs, he]

/-- Witness for C10: a stored record with matching window bounds but a
different config path and timeframe than the active configuration is
still returned. -/
theorem load_existing_result_ignores_other_config_fields_witness :
    load_existing_result {} wFilesOther "Gamma" = some wResultOther :=
  load_existing_result_ignores_other_config_fields {} wFilesOther "Gamma"
    wResultOther wCfgOther (by decide) (by decide) (by decide) (by decide)

/-- C8: `cleanup_failed_strategy_directory` removes the unit directory
when it is empty or contains no complete artifact (a regular `.json` file
whose name mentions `backtest` and whose size exceeds the 1000-byte
threshold), and leaves the directory map unchanged whenever such a
qualifying artifact is present. -/
theorem cleanup_failed_strategy_directory_safety
    (dirs : String → Option (List FileEntry)) (name : String)
    (files : List FileEntry) (h : dirs name = some files) :
    ((files = [] ∨ ∀ f ∈ files, isCompleteArtifact f = false) →
      cleanup_failed_strategy_directory dirs name name = none) ∧
    ((∃ f ∈ files, isCompleteArtifact f = true) →
      cleanup_failed_strategy_directory dirs name = dirs) := by
  unfold cleanup_failed_strategy_directory
  rw [h]
  constructor
  · rintro (rfl | hall)
    · simp [updateFn]
    · by_cases hemp : files = []
      · subst hemp; simp [updateFn]
      · have hany : files.any isCompleteArtifact = false := by
          rw [List.any_eq_false]
          intro f hf
          simp [hall f hf]
        simp [List.isEmpty_iff, hemp, hany, updateFn]
  · rintro ⟨f, hf, hc⟩
    have hemp : files ≠ [] := by rintro rfl; cases hf
    have hany : files.any isCompleteArtifact = true := List.any_eq_true.mpr ⟨f, hf, hc⟩
    simp [List.isEmpty_iff, hemp, hany]

/-- Witness for C8: a directory holding only a small partial file is
removed; a directory holding a complete `backtest` JSON above the size
threshold is kept. -/
theorem cleanup_failed_strategy_directory_safety_witness :
    cleanup_failed_strategy_directory wDirsSmall "Delta" "Delta" = none ∧
    cleanup_failed_strategy_directory wDirsBig "Delta" = wDirsBig :=
  ⟨(cleanup_failed_strategy_directory_safety wDirsSmall "Delta" [wSmallFile] (by decide)).1
      (Or.inr (by decide)),
   (cleanup_failed_strategy_directory_safety wDirsBig "Delta" [wBigFile] (by decide)).2
      ⟨wBigFile, by decide, by decide⟩⟩

/-! ### Shared lemmas for C4 -/

theorem toList_append (s t : String) : (s ++ t).toList = s.toList ++ t.toList := by
  cases s; cases t; rfl

theorem pyContains_append_right (s t pat : String) (h : pyContains s pat = true) :
    pyContains (s ++ t) pat = true := by
  unfold pyContains at h ⊢
  rw [decide_eq_true_iff] at h ⊢
  rw [toList_append]
  exact h.trans ((List.prefix_append s.toList t.toList).isInfix)

theorem timeoutMsgContains (n : Nat) :
    pyContains ("Timeout after " ++ toString n ++ " seconds") "Timeout" = true := by
  apply pyContains_append_right
  apply pyContains_append_right
  decide

theorem run_failure_eq (b : Backtester) (env : WorkerEnv) (st : Store) (name : String)
    (hmiss : load_existing_result b st.resultFiles name = none)
    (hnot : ∀ so se, env.outcome ≠ .success so se) :
    run_backtest_worker b env st name =
      failWorker (midStore env st name) name
        (failureRecord b env name env.detected_timeframe env.outcome) := by
  unfold run_backtest_worker
  rw [hmiss]
  rcases henv : env.outcome with ⟨so, se⟩ | ⟨so, se⟩ | _ | msg
  · exact absurd henv (hnot so se)
  · rfl
  · rfl
  · rfl

theorem failWorker_spec (st : Store) (name : String) (fr : WorkerFailedRecord) :
    (failWorker st name fr).1 = none ∧
    (failWorker st name fr).2.failedFiles name = some fr ∧
    (failWorker st name fr).2.cleanupCalls = st.cleanupCalls ++ [name] := by
  unfold failWorker
  exact ⟨rfl, by simp [updateFn], rfl⟩

/-- C4: every failing invocation of `run_backtest_worker` (nonzero exit,
timeout, or raised exception) persists a failure record carrying the
identifier, the error text of its failure mode and the timestamp to the
per-strategy failure cache file, invokes cleanup of the unit artifact
directory, and returns no success result; on timeout the error text
contains a timeout indication. -/
theorem run_backtest_worker_failure_persists (b : Backtester) (env : WorkerEnv)
    (st : Store) (name : String)
    (hmiss : load_existing_result b st.resultFiles name = none)
    (hfail : env.outcome = .timedOut ∨ (∃ so se, env.outcome = .exitError so se) ∨
      ∃ msg, env.outcome = .raised msg) :
    (run_backtest_worker b env st name).1 = none ∧
    (∃ fr, (run_backtest_worker b env st name).2.failedFiles name = some fr ∧
      fr.strategy = name ∧ fr.failed_timestamp = env.now ∧
      fr.error = (match env.outcome with
        | .exitError _ se => se
        | .timedOut => "Timeout after " ++ toString b.strategy_timeout ++ " seconds"
        | .raised msg => msg
        | .success _ _ => "")) ∧
    (run_backtest_worker b env st name).2.cleanupCalls = st.cleanupCalls ++ [name] ∧
    (env.outcome = .timedOut →
      ∃ fr, (run_backtest_worker b env st name).2.failedFiles name = some fr ∧
        pyContains fr.error "Timeout" = true) := by
  have hnot : ∀ so se, env.outcome ≠ .success so se := by
    rcases hfail with h | ⟨so, se, h⟩ | ⟨msg, h⟩ <;> rw [h] <;> intro _ _ hc <;> cases hc
  have heq := run_failure_eq b env st name hmiss hnot
  have hspec := failWorker_spec (midStore env st name) name
    (failureRecord b env name env.detected_timeframe env.outcome)
  rw [heq]
  refine ⟨hspec.1, ⟨_, hspec.2.1, ?_, ?_, ?_⟩, hspec.2.2, ?_⟩
  · rcases hfail with h | ⟨so, se, h⟩ | ⟨msg, h⟩ <;> rw [h] <;> rfl
  · rcases hfail with h | ⟨so, se, h⟩ | ⟨msg, h⟩ <;> rw [h] <;> rfl
  · rcases hfail with h | ⟨so, se, h⟩ | ⟨msg, h⟩ <;> rw [h] <;> rfl
  · intro hto
    refine ⟨_, hspec.2.1, ?_⟩
    rw [hto]
    exact timeoutMsgContains b.strategy_timeout

/-- Witness for C4: a concrete timed-out run on an empty store returns no
result, logs the cleanup call, and persists a failure record whose error
text mentions the timeout. -/
theorem run_backtest_worker_failure_persists_witness :
    (run_backtest_worker {} wEnvTimeout wStoreEmpty "Eps").1 = none ∧
    (run_backtest_worker {} wEnvTimeout wStoreEmpty "Eps").2.cleanupCalls = ["Eps"] ∧
    (∃ fr, (run_backtest_worker {} wEnvTimeout wStoreEmpty "Eps").2.failedFiles "Eps" = some fr ∧
      pyContains fr.error "Timeout" = true) := by
  have h := run_backtest_worker_failure_persists {} wEnvTimeout wStoreEmpty "Eps"
    (by decide) (Or.inl rfl)
  exact ⟨h.1, by simpa using h.2.2.1, h.2.2.2 rfl⟩

/-- C3 counterexample: with `X` both completed and failed, retry inclusion
returns `X` although it is a completed identifier, refuting the claim
that no completed identifier ever appears in the returned list. -/
theorem get_strategies_to_process_completed_retry_cx :
    "X" ∈ get_strategies_to_process ["X"] [some "X"] ["X"] true := by decide

/-- C3 amended: the call returns exactly the discovered strategies in
neither the completed nor the failed set, in discovery order, and with
retry inclusion appends the failed ones (discovery order preserved within
each group); no completed identifier appears in the pending group, and a
completed identifier can appear in the result only under retry inclusion
when it is also in the failed set. -/
theorem get_strategies_to_process_partition_amended (resultsKeys : List String)
    (failedNames : List (Option String)) (all_strategies : List String)
    (include_failed : Bool) :
    (∀ s, s ∈ get_strategies_to_process resultsKeys failedNames all_strategies include_failed ↔
      (s ∈ all_strategies ∧ s ∉ resultsKeys ∧ some s ∉ failedNames) ∨
      (include_failed = true ∧ s ∈ all_strategies ∧ some s ∈ failedNames)) ∧
    (∃ pending retry,
      get_strategies_to_process resultsKeys failedNames all_strategies include_failed =
        pending ++ retry ∧
      pending.Sublist all_strategies ∧ retry.Sublist all_strategies ∧
      (∀ s ∈ pending, s ∉ resultsKeys ∧ some s ∉ failedNames) ∧
      (∀ s ∈ retry, some s ∈ failedNames) ∧
      (include_failed = false → retry = [])) ∧
    (∀ s, s ∈ get_strategies_to_process resultsKeys failedNames all_strategies include_failed →
      s ∈ resultsKeys → include_failed = true ∧ some s ∈ failedNames) := by
  refine ⟨?_, ?_, ?_⟩
  · intro s
    unfold get_strategies_to_process
    cases include_failed <;> simp [List.mem_filter, List.mem_append]
  · refine ⟨all_strategies.filter
        (fun s => !(resultsKeys.contains s) && !(failedNames.contains (some s))),
      (if include_failed then
        all_strategies.filter (fun s => failedNames.contains (some s)) else []),
      ?_, List.filter_sublist _, ?_, ?_, ?_, ?_⟩
    · unfold get_strategies_to_process
      cases include_failed <;> simp
    · cases include_failed <;> simp [List.filter_sublist]
    · intro s hs
      simp [List.mem_filter] at hs
      tauto
    · intro s hs
      cases include_failed <;> simp [List.mem_filter] at hs
      exact hs.2
    · intro h
      rw [h]
      simp
  · intro s hs hks
    unfold get_strategies_to_process at hs
    cases include_failed
    · simp [List.mem_filter] at hs
      exact absurd hks hs.2.1
    · simp [List.mem_filter, List.mem_append] at hs
      rcases hs with ⟨_, hnk, _⟩ | ⟨_, hin⟩
      · exact absurd hks hnk
      · exact ⟨rfl, hin⟩

/-- Witness for the amended C3: with completed `B` and failed `C`, the
pending strategy `A` is in the returned list. -/
theorem get_strategies_to_process_partition_amended_witness :
    "A" ∈ get_strategies_to_process ["B"] [some "C"] ["A", "B", "C"] true :=
  ((get_strategies_to_process_partition_amended ["B"] [some "C"] ["A", "B", "C"] true).1 "A").mpr
    (Or.inl (by decide))

/-! ### Shared lemmas for C5 -/

theorem compatFold_nodup : ∀ (lines : List String) (acc : List String),
    acc.Nodup → (lines.foldl compatLineStep acc).Nodup
  | [], acc => fun h => h
  | line :: rest, acc => fun h => by
    rw [List.foldl_cons]
    apply compatFold_nodup rest
    unfold compatLineStep
    dsimp only
    split
    · split
      · split
        · exact h
        · next hmem =>
          rw [← List.concat_eq_append]
          exact List.Nodup.concat (by simpa using hmem) h
      · exact h
    · exact h

theorem fsScan_nodup (entries : List StratDirEntry)
    (h : (entries.map (fun e => e.name)).Nodup) :
    ((entries.filter (fun e => e.isDir && !(pyStartsWith e.name ".") && e.hasSameNamedPy)).map
      (fun e => e.name)).Nodup :=
  h.sublist ((List.filter_sublist entries).map (fun e => e.name))

/-- C5 counterexample: when the native listing tool prints the same
identifier on two lines, `discover_strategies` returns it twice — the
claimed duplicate-freeness fails for the native-listing discovery
strategy. -/
theorem discover_strategies_native_duplicates_cx :
    discover_strategies false none (.completed 0 "A\nA") none = ["A", "A"] ∧
    ¬ (discover_strategies false none (.completed 0 "A\nA") none).Nodup := by
  constructor <;> decide

/-- C5 amended: the compatibility filter always returns a sorted
duplicate-free sequence; the filesystem scan returns a sorted
duplicate-free sequence given the filesystem invariant that directory
entries have distinct names; native discovery always returns a sorted
sequence, which is additionally duplicate-free whenever the filtered
identifier lines of the tool listing are distinct. -/
theorem discovery_sorted_dedup_amended :
    (∀ g, (get_compatible_strategies g).Sorted PyLeR ∧ (get_compatible_strategies g).Nodup) ∧
    (∀ root, (∀ entries, root = some entries → (entries.map (fun e => e.name)).Nodup) →
      (discover_strategies_from_filesystem root).Sorted PyLeR ∧
      (discover_strategies_from_filesystem root).Nodup) ∧
    (∀ co g lo root,
      (∀ entries, root = some entries → (entries.map (fun e => e.name)).Nodup) →
      (discover_strategies co g lo root).Sorted PyLeR ∧
      ((∀ stdout, lo = .completed 0 stdout →
          (((pySplitOn (pyTrim stdout) "\n").map pyTrim).filter
            (fun s => s != "" && !(pyStartsWith s "2025-"))).Nodup) →
        (discover_strategies co g lo root).Nodup)) := by
  have hcompat : ∀ g, (get_compatible_strategies g).Sorted PyLeR ∧
      (get_compatible_strategies g).Nodup := by
    intro g
    unfold get_compatible_strategies
    rcases g with _ | ⟨rc, stdout⟩
    · exact ⟨List.sorted_nil, List.nodup_nil⟩
    · refine ⟨pySorted_sorted _, pySorted_nodup ?_⟩
      split
      · exact compatFold_nodup _ [] List.nodup_nil
      · exact List.nodup_nil
  have hfs : ∀ root, (∀ entries, root = some entries → (entries.map (fun e => e.name)).Nodup) →
      (discover_strategies_from_filesystem root).Sorted PyLeR ∧
      (discover_strategies_from_filesystem root).Nodup := by
    intro root hroot
    unfold discover_strategies_from_filesystem
    rcases root with _ | entries
    · exact ⟨List.sorted_nil, List.nodup_nil⟩
    · exact ⟨pySorted_sorted _, pySorted_nodup (fsScan_nodup entries (hroot entries rfl))⟩
  refine ⟨hcompat, hfs, ?_⟩
  intro co g lo root hroot
  unfold discover_strategies
  cases co
  · cases lo with
    | completed rc stdout =>
      by_cases hrc : rc = 0
      · subst hrc
        simp only [if_pos rfl, reduceIte]
        exact ⟨pySorted_sorted _, fun hn => pySorted_nodup (hn stdout rfl)⟩
      · simp only [if_neg hrc, reduceIte]
        exact ⟨(hfs root hroot).1, fun _ => (hfs root hroot).2⟩
    | timedOut =>
      exact ⟨(hfs root hroot).1, fun _ => (hfs root hroot).2⟩
    | raised =>
      exact ⟨(hfs root hroot).1, fun _ => (hfs root hroot).2⟩
  · exact ⟨(hcompat g).1, fun _ => (hcompat g).2⟩

/-- Witness for the amended C5: a concrete duplicate-free tool listing
yields a sorted, duplicate-free discovery result. -/
theorem discovery_sorted_dedup_amended_witness :
    (discover_strategies false none (.completed 0 "B\nA") none).Sorted PyLeR ∧
    (discover_strategies false none (.completed 0 "B\nA") none).Nodup := by
  have h := discovery_sorted_dedup_amended.2.2 false none (.completed 0 "B\nA") none
    (fun entries he => nomatch he)
  exact ⟨h.1, h.2 (fun stdout hs => by cases hs; decide)⟩

/-! ### Shared lemmas for C7 -/

theorem detailRowBody_strategy (m : Metrics) (p1 p2 : String) :
    (detailRowBody m p1 p2).strategy = m.strategy := by
  unfold detailRowBody
  repeat' split
  all_goals rfl

theorem detailRow_strategy (m : Metrics) (parts : List String) :
    (detailRow m parts).strategy = m.strategy := by
  unfold detailRow
  split
  · exact detailRowBody_strategy m _ _
  · rfl

theorem summaryWinStats_strategy (m : Metrics) (w : String) :
    (summaryWinStats m w).strategy = m.strategy := by
  unfold summaryWinStats
  repeat' split
  all_goals rfl

theorem summaryRow_strategy (m : Metrics) (parts : List String) :
    (summaryRow m parts).strategy = m.strategy := by
  unfold summaryRow
  repeat' split
  all_goals first | rfl | (rw [summaryWinStats_strategy])

theorem backtestedUpdate_strategy (m : Metrics) (dp : String) :
    (backtestedUpdate m dp).strategy = m.strategy := by
  unfold backtestedUpdate
  repeat' split
  all_goals rfl

theorem processLine_strategy (name : String) (m : Metrics) (line : String) :
    (processLine name m line).strategy = m.strategy := by
  unfold processLine
  simp only [detailBranch, summaryBranch, backtestedBranch]
  repeat' split
  all_goals simp only [backtestedUpdate_strategy, summaryRow_strategy, detailRow_strategy]

theorem foldl_processLine_strategy (name : String) :
    ∀ (lines : List String) (m : Metrics),
      (lines.foldl (processLine name) m).strategy = m.strategy
  | [], _ => rfl
  | line :: rest, m => by
    rw [List.foldl_cons, foldl_processLine_strategy name rest, processLine_strategy]

/-- C7 counterexample: in the strategy-summary row, a single malformed
numeric cell (the average-profit column) leaves the well-formed absolute
profit column unparsed: the two inputs differ only in that one malformed
cell, yet `total_profit_abs` drops from 7 to its default 0, refuting
isolation at field granularity. -/
theorem parse_backtest_output_field_isolation_cx :
    (parse_backtest_output "│Strat│10│bad│7.0│2.0│3h│1 0 1 50.0│" "Strat").total_trades = 10 ∧
    (parse_backtest_output "│Strat│10│bad│7.0│2.0│3h│1 0 1 50.0│" "Strat").avg_profit = 0 ∧
    (parse_backtest_output "│Strat│10│bad│7.0│2.0│3h│1 0 1 50.0│" "Strat").total_profit_abs = 0 ∧
    (parse_backtest_output "│Strat│10│1.0│7.0│2.0│3h│1 0 1 50.0│" "Strat").total_profit_abs = 7 := by
  refine ⟨?_, ?_, ?_, ?_⟩ <;> decide

/-- C7 amended: `parse_backtest_output` is a total function (the embedded
parse never raises); an empty output yields the all-defaults record and
the strategy field always carries the given identifier; a malformed
numeric cell in a labelled detail row changes at most the single field of
that row (all other fields unaffected); in the strategy-summary row a
malformed numeric cell keeps the fields already assigned before it (here:
total trades) and leaves every later field of the row at its prior
value — isolation there is at row-prefix granularity, not field
granularity. -/
theorem parse_backtest_output_isolation_amended :
    (∀ name, parse_backtest_output "" name = initMetrics name) ∧
    (∀ output name, (parse_backtest_output output name).strategy = name) ∧
    (∀ m p1 p2, DetailSingleUpdate m (detailRowBody m p1 p2)) ∧
    (∀ m line parts t, (pySplitOn line "│").map pyTrim = parts → parts.length ≥ 9 →
      parseInt (parts.getD 2 "") = some t → parseFloat (parts.getD 3 "") = none →
      summaryBranch m line = { m with total_trades := t }) := by
  refine ⟨?_, ?_, ?_, ?_⟩
  · intro name
    show (pySplitOn "" "\n").foldl (processLine name) (initMetrics name) = initMetrics name
    rw [show pySplitOn "" "\n" = [""] from rfl]
    show processLine name (initMetrics name) "" = initMetrics name
    unfold processLine
    simp [show pyContains "" "│" = false from by decide,
      show pyContains "" "Backtested" = false from by decide,
      show pyTrim "" = "" from rfl]
  · intro output name
    unfold parse_backtest_output
    rw [foldl_processLine_strategy]
    rfl
  · intro m p1 p2
    unfold detailRowBody
    repeat' split
    all_goals first
      | exact Or.inl rfl
      | exact Or.inr (Or.inl ⟨_, rfl⟩)
      | exact Or.inr (Or.inr (Or.inl ⟨_, rfl⟩))
      | exact Or.inr (Or.inr (Or.inr (Or.inl ⟨_, rfl⟩)))
      | exact Or.inr (Or.inr (Or.inr (Or.inr (Or.inl ⟨_, rfl⟩))))
      | exact Or.inr (Or.inr (Or.inr (Or.inr (Or.inr (Or.inl ⟨_, rfl⟩)))))
      | exact Or.inr (Or.inr (Or.inr (Or.inr (Or.inr (Or.inr (Or.inl ⟨_, rfl⟩))))))
      | exact Or.inr (Or.inr (Or.inr (Or.inr (Or.inr (Or.inr (Or.inr (Or.inl ⟨_, rfl⟩)))))))
      | exact Or.inr (Or.inr (Or.inr (Or.inr (Or.inr (Or.inr (Or.inr (Or.inr ⟨_, rfl⟩)))))))
  · intro m line parts t hparts hlen hpi hpf
    unfold summaryBranch
    rw [hparts]
    unfold summaryRow
    rw [if_pos hlen, hpi, hpf]

/-- Witness for the amended C7: a concrete summary row with a malformed
third cell sets only the total-trades field. -/
theorem parse_backtest_output_isolation_amended_witness :
    summaryBranch (initMetrics "S") "│S│10│bad│7.0│2.0│3h│1 0 1 50.0│" =
      { initMetrics "S" with total_trades := 10 } :=
  parse_backtest_output_isolation_amended.2.2.2 (initMetrics "S") "│S│10│bad│7.0│2.0│3h│1 0 1 50.0│"
    ["", "S", "10", "bad", "7.0", "2.0", "3h", "1 0 1 50.0", ""] 10
    (by decide) (by decide) (by decide) (by decide)


/-! ### Shared lemmas for C6 and C9 -/

theorem applyComparison_strategy (m : UtilsMetrics) (c : ComparisonEntry) (bd : BacktestData) :
    (applyComparison m c bd).strategy = m.strategy := by
  unfold applyComparison applyWorstPair applyBestPair applyDates applyCompMetrics
  repeat' split
  all_goals rfl

theorem applyDirect_strategy (m : UtilsMetrics) (bd : BacktestData) :
    (applyDirect m bd).strategy = m.strategy := by
  unfold applyDirect applyWinLoss applyWorstPair applyBestPair applyDirectMetrics
  repeat' split
  all_goals rfl

theorem parse_strategy_json_data_strategy (name : String) (d : Option BacktestData)
    (m : UtilsMetrics) (h : parse_strategy_json_data name d = some m) :
    m.strategy = name := by
  unfold parse_strategy_json_data at h
  split at h
  · exact absurd h (by simp)
  · split at h
    · exact absurd h (by simp)
    · split at h
      · split at h
        · cases h
          rw [applyComparison_strategy]
        · split at h
          · cases h
            rw [applyDirect_strategy]
          · exact absurd h (by simp)
      · exact absurd h (by simp)

theorem foldl_dirScanStep (entries : List ResultsDirEntry) :
    ∀ acc : List String × List (String × SuccessRecord),
      entries.foldl dirScanStep acc =
        (acc.1 ++ dirSuccNames entries, acc.2 ++ dirSuccPairs entries) := by
  induction entries with
  | nil => intro acc; simp [dirSuccNames, dirSuccPairs]
  | cons e rest ih =>
    intro acc
    rw [List.foldl_cons, ih]
    unfold dirScanStep dirSuccNames dirSuccPairs
    rw [List.filterMap_cons, List.filterMap_cons]
    split
    · next hskip => simp [hskip, dirSuccNames, dirSuccPairs]
    · next hskip =>
      rcases hp : parse_strategy_json_data e.name e.backtestData with _ | m
      · simp [hskip, hp, dirSuccNames, dirSuccPairs]
      · simp [hskip, hp, dirSuccNames, dirSuccPairs]

theorem foldl_failedDirStep (now : String) (entries : List ResultsDirEntry) :
    ∀ acc : List UtilsFailedRecord,
      entries.foldl (failedDirStep now) acc = acc ++ dirFailRecs now entries := by
  induction entries with
  | nil => intro acc; simp [dirFailRecs]
  | cons e rest ih =>
    intro acc
    rw [List.foldl_cons, ih]
    unfold failedDirStep dirFailRecs
    rw [List.filterMap_cons]
    split
    · next hskip => simp [hskip, dirFailRecs]
    · next hskip =>
      rcases hp : parse_strategy_json_data e.name e.backtestData with _ | m
      · rcases hfi : e.failedIndicators with _ | _
        · simp [hskip, hp, hfi, dirFailRecs]
        · simp [hskip, hp, hfi, dirFailRecs]
      · simp [hskip, hp, dirFailRecs]

theorem lookupKey_append_of_some (l1 l2 : List (String × SuccessRecord)) (k : String)
    (v : SuccessRecord) (h : lookupKey l1 k = some v) :
    lookupKey (l1 ++ l2) k = some v := by
  unfold lookupKey at h ⊢
  rw [List.find?_append]
  rcases hf : List.find? (fun p => p.1 == k) l1 with _ | q
  · rw [hf] at h; cases h
  · rw [hf] at h
    rw [hf]
    simpa using h

theorem lookupKey_some_mem (pairs : List (String × SuccessRecord)) (k : String)
    (v : SuccessRecord) (h : lookupKey pairs k = some v) : (k, v) ∈ pairs := by
  unfold lookupKey at h
  rcases hf : List.find? (fun p => p.1 == k) pairs with _ | q
  · rw [hf] at h; cases h
  · rw [hf] at h
    have h1 := List.find?_some hf
    have h2 : q ∈ pairs := List.mem_of_find?_eq_some hf
    have h3 : q.1 = k := by simpa using h1
    have h4 : q.2 = v := by simpa using h
    have : q = (k, v) := by
      rw [← h3, ← h4]
    rw [← this]
    exact h2

theorem lookupKey_eq_of_mem_nodup (pairs : List (String × SuccessRecord)) (k : String)
    (v : SuccessRecord) (hn : (pairs.map Prod.fst).Nodup) (hm : (k, v) ∈ pairs) :
    lookupKey pairs k = some v := by
  induction pairs with
  | nil => cases hm
  | cons q rest ih =>
    rcases List.mem_cons.mp hm with heq | hmem
    · rw [← heq]
      unfold lookupKey
      rw [@List.find?_cons_of_pos _ (fun p => p.1 == k) (k, v) rest (by simp)]
      rfl
    · have hne : ¬ (q.1 == k) = true := by
        intro hkk
        have hk' : q.1 = k := by simpa using hkk
        have hmm : k ∈ rest.map Prod.fst := by
          have := List.mem_map_of_mem Prod.fst hmem
          simpa using this
        rw [List.map_cons, List.nodup_cons] at hn
        exact hn.1 (hk' ▸ hmm)
      unfold lookupKey
      rw [@List.find?_cons_of_neg _ (fun p => p.1 == k) q rest hne]
      exact ih (by rw [List.map_cons, List.nodup_cons] at hn; exact hn.2) hmem

theorem cacheScan_preserves (files : List (CacheFile CachedResult)) :
    ∀ (acc : List String × List (String × SuccessRecord)) (k : String) (v : SuccessRecord),
      lookupKey acc.2 k = some v →
      lookupKey (files.foldl cacheScanStep acc).2 k = some v ∧
      ((files.foldl cacheScanStep acc).2.map Prod.fst).count k =
        (acc.2.map Prod.fst).count k := by
  induction files with
  | nil => intro acc k v h; exact ⟨h, rfl⟩
  | cons f rest ih =>
    intro acc k v h
    rw [List.foldl_cons]
    unfold cacheScanStep
    split
    · exact ih acc k v h
    · next cr hc =>
      split
      · exact ih acc k v h
      · next hmiss =>
        have hk : cr.strategyKey.getD (pyReplace f.stem "_result" "") ≠ k := by
          intro hkk
          rw [hkk, h] at hmiss
          simp at hmiss
        have h2 := lookupKey_append_of_some acc.2
          [(cr.strategyKey.getD (pyReplace f.stem "_result" ""),
            SuccessRecord.fromCache cr.record)] k v h
        have h3 := ih (acc.1 ++ [cr.strategyKey.getD (pyReplace f.stem "_result" "")],
          acc.2 ++ [(cr.strategyKey.getD (pyReplace f.stem "_result" ""),
                     SuccessRecord.fromCache cr.record)]) k v h2
        refine ⟨h3.1, h3.2.trans ?_⟩
        simp [List.count_cons, hk]

theorem dirSuccPairs_keys_sublist (entries : List ResultsDirEntry) :
    ((dirSuccPairs entries).map Prod.fst).Sublist (entries.map (fun e => e.name)) := by
  induction entries with
  | nil => simp [dirSuccPairs]
  | cons e rest ih =>
    by_cases hskip : (!e.isDir || e.name == "individual_results") = true
    · have hstep : dirSuccPairs (e :: rest) = dirSuccPairs rest := by
        unfold dirSuccPairs
        rw [List.filterMap_cons]
        simp [hskip]
      rw [hstep, List.map_cons]
      exact ih.cons _
    · rcases hp : parse_strategy_json_data e.name e.backtestData with _ | m
      · have hstep : dirSuccPairs (e :: rest) = dirSuccPairs rest := by
          unfold dirSuccPairs
          rw [List.filterMap_cons]
          simp [hskip, hp]
        rw [hstep, List.map_cons]
        exact ih.cons _
      · have hstr : m.strategy = e.name := parse_strategy_json_data_strategy _ _ _ hp
        have hstep : dirSuccPairs (e :: rest) =
            (m.strategy, SuccessRecord.fromDir m) :: dirSuccPairs rest := by
          unfold dirSuccPairs
          rw [List.filterMap_cons]
          simp [hskip, hp]
        rw [hstep, List.map_cons, List.map_cons]
        simp only [hstr]
        exact ih.cons₂ _

theorem mem_dirSuccPairs {e : ResultsDirEntry} {entries : List ResultsDirEntry}
    {m : UtilsMetrics} (he : e ∈ entries) (hdir : e.isDir = true)
    (hni : e.name ≠ "individual_results")
    (hp : parse_strategy_json_data e.name e.backtestData = some m) :
    (m.strategy, SuccessRecord.fromDir m) ∈ dirSuccPairs entries := by
  apply List.mem_filterMap.mpr
  refine ⟨e, he, ?_⟩
  simp [hdir, hni, hp]

theorem dirSuccPairs_mem_inv {entries : List ResultsDirEntry} {k : String}
    {v : SuccessRecord} (h : (k, v) ∈ dirSuccPairs entries) :
    ∃ e ∈ entries, ∃ m, parse_strategy_json_data e.name e.backtestData = some m ∧
      k = e.name := by
  rcases List.mem_filterMap.mp h with ⟨e, he, hfe⟩
  refine ⟨e, he, ?_⟩
  split at hfe
  · cases hfe
  · rcases hp : parse_strategy_json_data e.name e.backtestData with _ | m
    · rw [hp] at hfe; cases hfe
    · rw [hp] at hfe
      refine ⟨m, rfl, ?_⟩
      have hstr : m.strategy = e.name := parse_strategy_json_data_strategy _ _ _ hp
      cases hfe
      exact hstr.symm ▸ rfl

theorem mem_dirFailRecs_inv {entries : List ResultsDirEntry} {now : String}
    {fr : UtilsFailedRecord} (h : fr ∈ dirFailRecs now entries) :
    ∃ e ∈ entries, parse_strategy_json_data e.name e.backtestData = none ∧
      fr.strategy = some e.name := by
  rcases List.mem_filterMap.mp h with ⟨e, he, hfe⟩
  refine ⟨e, he, ?_⟩
  split at hfe
  · cases hfe
  · rcases hp : parse_strategy_json_data e.name e.backtestData with _ | m
    · rw [hp] at hfe
      rcases hfi : e.failedIndicators with _ | _
      · rw [if_neg (by simp [hfi])] at hfe
        cases hfe
      · rw [if_pos hfi] at hfe
        cases hfe
        exact ⟨rfl, rfl⟩
    · rw [hp] at hfe
      cases hfe

/-- C9: when a strategy artifact directory parses successfully, the
reconciliation success map holds exactly one entry for that identifier
and it is the directory-derived record; a flat-cache record for the same
identifier never overrides it (the cache pass only adds keys not already
present). -/
theorem discover_all_prefers_directory_record (fs : UtilsFS) (e : ResultsDirEntry) (m : UtilsMetrics)
    (he : e ∈ fs.entries) (hdir : e.isDir = true) (hni : e.name ≠ "individual_results")
    (hp : parse_strategy_json_data e.name e.backtestData = some m)
    (hnodup : (fs.entries.map (fun x => x.name)).Nodup)
    (hex : fs.results_dir_exists = true) :
    lookupKey (discover_all_successful_strategies fs).2 e.name =
      some (SuccessRecord.fromDir m) ∧
    (((discover_all_successful_strategies fs).2).map Prod.fst).count e.name = 1 := by
  have hstr : m.strategy = e.name := parse_strategy_json_data_strategy _ _ _ hp
  have hmem : (e.name, SuccessRecord.fromDir m) ∈ dirSuccPairs fs.entries := by
    have h1 := mem_dirSuccPairs he hdir hni hp
    rwa [hstr] at h1
  have hkn : ((dirSuccPairs fs.entries).map Prod.fst).Nodup :=
    hnodup.sublist (dirSuccPairs_keys_sublist fs.entries)
  have hlk : lookupKey (dirSuccPairs fs.entries) e.name = some (SuccessRecord.fromDir m) :=
    lookupKey_eq_of_mem_nodup _ _ _ hkn hmem
  have hcnt : ((dirSuccPairs fs.entries).map Prod.fst).count e.name = 1 :=
    List.count_eq_one_of_mem hkn (by
      have := List.mem_map_of_mem Prod.fst hmem
      simpa using this)
  unfold discover_all_successful_strategies
  rw [hex]
  simp only [Bool.not_true, Bool.false_eq_true, if_false]
  rw [foldl_dirScanStep fs.entries ([], [])]
  simp only [List.nil_append]
  split
  · have hpres := cacheScan_preserves fs.cacheResults
      (dirSuccNames fs.entries, dirSuccPairs fs.entries) e.name
      (SuccessRecord.fromDir m) hlk
    exact ⟨hpres.1, hpres.2.trans hcnt⟩
  · exact ⟨hlk, hcnt⟩

/-- C6 amended: disjointness holds for the directory scan — an
identifier never appears both in the success map and as the strategy of a
failure record when the flat caches are empty, because a directory
failure record is only emitted when the structured parse fails while a
success entry requires it to succeed.  (The full claim is refuted by the
flat caches: see the counterexample, where an identifier holds both a
cached success file and a cached failure file.) -/
theorem collect_all_results_directory_disjointness_amended (fs : UtilsFS) (now : String)
    (hcr : fs.cacheResults = []) (hcf : fs.cacheFailed = [])
    (hnodup : (fs.entries.map (fun x => x.name)).Nodup) :
    ∀ n, (lookupKey (collect_all_results fs now).1 n).isSome = true →
      ∀ fr ∈ (collect_all_results fs now).2, fr.strategy ≠ some n := by
  intro n hsome fr hfr hcontra
  unfold collect_all_results discover_all_successful_strategies get_failed_strategies
    at hsome hfr
  by_cases hex : fs.results_dir_exists
  · rw [hex] at hsome hfr
    simp only [Bool.not_true, Bool.false_eq_true, if_false] at hsome hfr
    rw [hcr] at hsome
    rw [hcf] at hfr
    rw [foldl_dirScanStep fs.entries ([], [])] at hsome
    rw [foldl_failedDirStep now fs.entries []] at hfr
    simp only [List.nil_append, List.foldl_nil, ite_self] at hsome hfr
    rcases Option.isSome_iff_exists.mp hsome with ⟨v, hv⟩
    have hmem := lookupKey_some_mem _ _ _ hv
    rcases dirSuccPairs_mem_inv hmem with ⟨e, he, m, hpm, hkn⟩
    rcases mem_dirFailRecs_inv hfr with ⟨e2, he2, hpn, hfs2⟩
    rw [hcontra] at hfs2
    have hnames : e2.name = e.name := by
      have h1 : some e2.name = some n := hfs2.symm
      cases h1
      exact hkn
    have heq : e2 = e := List.inj_on_of_nodup_map hnodup he2 he hnames
    rw [heq, hpm] at hpn
    cases hpn
  · have hex2 : fs.results_dir_exists = false := by simpa using hex
    rw [hex2] at hsome
    simp [lookupKey] at hsome


/-- Witness for C9: with directory `X` parsed and a flat-cache record for
`X` also present, the map holds the directory-derived record exactly
once. -/
theorem discover_all_prefers_directory_record_witness :
    lookupKey (discover_all_successful_strategies wFsBoth).2 "X" =
      some (SuccessRecord.fromDir (applyComparison { strategy := "X" } {} wBd)) ∧
    (((discover_all_successful_strategies wFsBoth).2).map Prod.fst).count "X" = 1 :=
  discover_all_prefers_directory_record wFsBoth wDirX
    (applyComparison { strategy := "X" } {} wBd)
    (by decide) rfl (by decide) rfl (by decide) rfl

/-- C6 counterexample: an identifier with both a cached success file and a
cached failure file appears in the success map and in the failure list at
once — the persisted namespaces are separate files, but the reconciliation
outputs are not disjoint. -/
theorem collect_all_results_disjointness_cx :
    (lookupKey (collect_all_results wFsOverlap "now").1 "X").isSome = true ∧
    ∃ fr ∈ (collect_all_results wFsOverlap "now").2, fr.strategy = some "X" := by
  refine ⟨by decide, wFrX, by decide, rfl⟩

/-- Witness for the amended C6: in a concrete state where directory `X`
succeeded and directory `Y` failed (caches empty), the failure record for
`Y` does not carry the successful identifier `X`. -/
theorem collect_all_results_directory_disjointness_amended_witness :
    ({ strategy := some "Y", error := "Backtest failed",
       failed_timestamp := "t1" } : UtilsFailedRecord).strategy ≠ some "X" :=
  collect_all_results_directory_disjointness_amended wFsDisjoint "t1" rfl rfl
    (by decide) "X" (by decide)
    { strategy := some "Y", error := "Backtest failed", failed_timestamp := "t1" }
    (by decide)

end FreqTrade
